import Mathlib

/-!
Verification of the fan-controller repository (Go) against its specification.
The Go source is shallowly embedded: Go `float64` values are modelled as exact
rationals (`ℚ`), Go `int` as `ℤ`, and fallible operations as `Option`/`Except`.
Wall-clock instants are modelled as rationals (seconds); `time.Time` subtraction
becomes rational subtraction.
-/

/-- Embedding of `clamp` from pid.go: limits a value between min and max. -/
def clamp (value lo hi : ℚ) : ℚ :=
  if value < lo then lo
  else if value > hi then hi
  else value

/-- Embedding of the `PIDController` struct from pid.go.  `PrevTime` is a
rational instant (seconds); the Go zero `time.Time` is modelled as 0. -/
structure PIDController where
  Kp : ℚ
  Ki : ℚ
  Kd : ℚ
  Target : ℚ
  Integral : ℚ
  PrevError : ℚ
  PrevTime : ℚ
  FirstRun : Bool
  MinOutput : ℚ
  MaxOutput : ℚ
  IntegralMax : ℚ
deriving DecidableEq

/-- Embedding of the `PIDTerms` struct from pid.go. -/
structure PIDTerms where
  P : ℚ
  I : ℚ
  D : ℚ
  Error : ℚ
deriving DecidableEq

/-- Embedding of `NewPIDController` from pid.go: unmentioned fields start at
their Go zero values (`Integral = 0`, `PrevError = 0`, zero time, and
`FirstRun = true` is set explicitly). -/
def NewPIDController (kp ki kd target minOutput maxOutput integralMax : ℚ) :
    PIDController :=
  { Kp := kp, Ki := ki, Kd := kd, Target := target,
    Integral := 0, PrevError := 0, PrevTime := 0, FirstRun := true,
    MinOutput := minOutput, MaxOutput := maxOutput, IntegralMax := integralMax }

/-- Time delta used by `Calculate`: 1 second on the first run, otherwise
`now - PrevTime` in seconds (pid.go lines 61-67). -/
def pidDt (p : PIDController) (now : ℚ) : ℚ :=
  if p.FirstRun then 1 else now - p.PrevTime

/-- Derivative term of `Calculate`: zero on the first run or when `dt ≤ 0`,
otherwise `Kd * (error - PrevError) / dt` (pid.go lines 76-80). -/
def pidDerivative (p : PIDController) (current now : ℚ) : ℚ :=
  if p.FirstRun = false ∧ 0 < pidDt p now then
    p.Kd * ((current - p.Target) - p.PrevError) / pidDt p now
  else 0

/-- Embedding of `PIDController.Calculate` from pid.go.  Takes the current
value and the wall-clock instant `now` (in Go, `time.Now()` is read inside the
function; here it is an explicit argument).  Returns the clamped output, the
diagnostic terms, and the updated controller state.  Note that the Go code
adds the clamped accumulator `integralClamped` directly into the output and
never multiplies by `Ki`. -/
def Calculate (p : PIDController) (current now : ℚ) :
    ℚ × PIDTerms × PIDController :=
  let error := current - p.Target
  let dt := pidDt p now
  let proportional := p.Kp * error
  let integral := p.Integral + error * dt
  let integralClamped := clamp integral (-p.IntegralMax) p.IntegralMax
  let derivative := pidDerivative p current now
  let output := clamp (proportional + integralClamped + derivative)
    p.MinOutput p.MaxOutput
  (output,
   { P := proportional, I := integralClamped, D := derivative, Error := error },
   { p with Integral := integralClamped, PrevError := error, PrevTime := now,
            FirstRun := false })

/-- Embedding of `PIDController.Reset` from pid.go. -/
def Reset (p : PIDController) : PIDController :=
  { p with Integral := 0, PrevError := 0, PrevTime := 0, FirstRun := true }

/-- Runs a finite sequence of `Calculate` calls; each input is a pair
`(current, now)`. -/
def runCalcs (p : PIDController) (inputs : List (ℚ × ℚ)) : PIDController :=
  inputs.foldl (fun st i => (Calculate st i.1 i.2).2.2) p

/-- The clamp of a value to `[-M, M]` has absolute value at most `M` whenever
`0 ≤ M`. -/
lemma abs_clamp_le (x M : ℚ) (h : 0 ≤ M) : |clamp x (-M) M| ≤ M := by
  unfold clamp
  split_ifs with h1 h2 <;> rw [abs_le] <;> constructor <;> linarith

/-- One `Calculate` step keeps `IntegralMax` unchanged and leaves the stored
integral within `[-IntegralMax, IntegralMax]` whenever `IntegralMax ≥ 0`. -/
lemma calculate_integral_bound (p : PIDController) (current now : ℚ)
    (h : 0 ≤ p.IntegralMax) :
    (Calculate p current now).2.2.IntegralMax = p.IntegralMax ∧
    |(Calculate p current now).2.2.Integral| ≤ p.IntegralMax := by
  refine ⟨rfl, ?_⟩
  exact abs_clamp_le _ _ h

/-- Any run of `Calculate` calls from a state whose integral is in bounds
stays in bounds (and `IntegralMax` never changes). -/
lemma runCalcs_invariant (M : ℚ) (hM : 0 ≤ M) :
    ∀ (inputs : List (ℚ × ℚ)) (st : PIDController),
      st.IntegralMax = M → |st.Integral| ≤ M →
      (runCalcs st inputs).IntegralMax = M ∧
      |(runCalcs st inputs).Integral| ≤ M := by
  intro inputs
  induction inputs with
  | nil => intro st h1 h2; exact ⟨h1, h2⟩
  | cons i is ih =>
      intro st h1 h2
      have hstep := calculate_integral_bound st i.1 i.2 (h1 ▸ hM)
      have h1' : (Calculate st i.1 i.2).2.2.IntegralMax = M := by
        rw [hstep.1, h1]
      have h2' : |(Calculate st i.1 i.2).2.2.Integral| ≤ M :=
        le_trans hstep.2 (le_of_eq h1)
      exact ih _ h1' h2'

/-- C2: for every controller created by `NewPIDController` with
`IntegralMax > 0`, after any finite sequence of `Calculate` calls the stored
integral accumulator satisfies `|Integral| ≤ IntegralMax`; and `Reset` sets
`Integral = 0` and `FirstRun = true`. -/
theorem C2_integral_bounded (kp ki kd target minOut maxOut integralMax : ℚ)
    (hM : 0 < integralMax) (inputs : List (ℚ × ℚ)) :
    |(runCalcs (NewPIDController kp ki kd target minOut maxOut integralMax)
        inputs).Integral| ≤ integralMax ∧
    ∀ p : PIDController, (Reset p).Integral = 0 ∧ (Reset p).FirstRun = true := by
  constructor
  · have h0 : |(NewPIDController kp ki kd target minOut maxOut
        integralMax).Integral| ≤ integralMax := by
      simp [NewPIDController]
      linarith
    exact (runCalcs_invariant integralMax (le_of_lt hM) inputs _ rfl h0).2
  · intro p; exact ⟨rfl, rfl⟩

/-- Witness for C2 at a concrete controller and input sequence. -/
theorem C2_witness :
    |(runCalcs (NewPIDController 5 (1/10) 2 38 0 100 50)
        [(40, 1), (42, 2)]).Integral| ≤ 50 :=
  (C2_integral_bounded 5 (1/10) 2 38 0 100 50 (by norm_num)
    [(40, 1), (42, 2)]).1

/-- C1 counterexample: at a concrete reachable state (a freshly created
controller with `Ki = 1/10`), the output of `Calculate` is `10`, while
`clamp (P + Ki_folded_I + D)` is `1` under both conventions for folding `Ki`
into the integral term (applying `Ki` while accumulating, or multiplying the
stored accumulator by `Ki`).  Hence the observable output is not
`clamp (P + Ki_folded_I + D)` and does not depend on `Ki`. -/
theorem C1_counterexample :
    (Calculate (NewPIDController 0 (1/10) 0 0 (-100) 100 50) 10 0).1 = 10 ∧
    clamp ((0 : ℚ) * 10 + clamp (0 + (1/10) * 10 * 1) (-50) 50 + 0)
      (-100) 100 = 1 ∧
    clamp ((0 : ℚ) * 10 + (1/10) * clamp (0 + 10 * 1) (-50) 50 + 0)
      (-100) 100 = 1 ∧
    (10 : ℚ) ≠ 1 := by
  refine ⟨?_, ?_, ?_, by norm_num⟩ <;>
    norm_num [Calculate, NewPIDController, clamp, pidDt, pidDerivative]

/-- C1 amended: the output of `Calculate` equals
`clamp (P + I + D, MinOutput, MaxOutput)` where `I` is the clamped raw
accumulator `Integral + error * dt` with no `Ki` factor applied anywhere;
consequently the output is independent of `Ki`. -/
theorem C1_output_formula (p : PIDController) (current now : ℚ) :
    (Calculate p current now).1 =
      clamp (p.Kp * (current - p.Target)
          + clamp (p.Integral + (current - p.Target) * pidDt p now)
              (-p.IntegralMax) p.IntegralMax
          + pidDerivative p current now)
        p.MinOutput p.MaxOutput ∧
    ∀ ki : ℚ, (Calculate { p with Ki := ki } current now).1 =
      (Calculate p current now).1 := by
  exact ⟨rfl, fun ki => rfl⟩

/-!
Sensor aggregation (sensors.go).  A Go `map[string]int` of disk temperatures
is modelled by the list of its values: `GetAverageOfWarmest`,
`GetMaxTemperature` and `GetMinTemperature` read only the values (the
arbitrary first key picked by `GetMinTemperature` becomes the list head).
The bubble sort in `GetAverageOfWarmest` (descending) is modelled by
`List.insertionSort` with the same descending order; both produce a
descending-sorted permutation of the input, and only the sorted result is
used.  Go's `float64` division is exact rational division except at `0/0`,
which produces NaN; the result type `Option ℚ` uses `none` for that NaN.
-/

/-- Number of entries averaged by `GetAverageOfWarmest`: `take := n`, lowered
to `len(tempSlice)` when fewer disks than `n` are present. -/
def warmestTakeCount (temps : List ℤ) (n : ℤ) : ℤ :=
  if (temps.length : ℤ) < n then (temps.length : ℤ) else n

/-- Sum accumulated by the `for i := 0; i < take; i++` loop of
`GetAverageOfWarmest`: the first `take` entries of the descending-sorted
values (no iterations when `take ≤ 0`). -/
def warmestSum (temps : List ℤ) (n : ℤ) : ℤ :=
  ((temps.insertionSort (fun a b => b ≤ a)).take
    (warmestTakeCount temps n).toNat).sum

/-- Embedding of `GetAverageOfWarmest` from sensors.go.  Returns `some 0` for
an empty map (early return), otherwise `float64(sum) / float64(take)`:
`none` models the NaN produced by the float division `0/0` when `take = 0`. -/
def GetAverageOfWarmest (temps : List ℤ) (n : ℤ) : Option ℚ :=
  if temps = [] then some 0
  else if warmestTakeCount temps n = 0 then none
  else some ((warmestSum temps n : ℚ) / (warmestTakeCount temps n : ℚ))

/-- Embedding of `GetMaxTemperature` from sensors.go: folds
`if temp > max { max = temp }` over the values starting from `max = 0`. -/
def GetMaxTemperature (temps : List ℤ) : ℤ :=
  temps.foldl (fun m t => if t > m then t else m) 0

/-- Embedding of `GetMinTemperature` from sensors.go: returns 0 for an empty
map; otherwise starts from an arbitrary entry's value (the head here) and
folds `if temp < min { min = temp }` over all values. -/
def GetMinTemperature (temps : List ℤ) : ℤ :=
  match temps with
  | [] => 0
  | t :: ts => (t :: ts).foldl (fun m x => if x < m then x else m) t

/-- The running maximum never drops below its initial value. -/
lemma le_foldl_maxStep (l : List ℤ) (a : ℤ) :
    a ≤ l.foldl (fun m t => if t > m then t else m) a := by
  induction l generalizing a with
  | nil => simp
  | cons t ts ih =>
      refine le_trans ?_ (ih (if t > a then t else a))
      split <;> omega

/-- Every element of the list is at most the final running maximum. -/
lemma mem_le_foldl_maxStep (l : List ℤ) (a x : ℤ) (hx : x ∈ l) :
    x ≤ l.foldl (fun m t => if t > m then t else m) a := by
  induction l generalizing a with
  | nil => cases hx
  | cons t ts ih =>
      rcases List.mem_cons.mp hx with h | h
      · subst h
        refine le_trans ?_ (le_foldl_maxStep ts (if x > a then x else a))
        split <;> omega
      · exact ih _ h

/-- Every value in the map is at most `GetMaxTemperature`. -/
lemma le_GetMaxTemperature (temps : List ℤ) (x : ℤ) (hx : x ∈ temps) :
    x ≤ GetMaxTemperature temps :=
  mem_le_foldl_maxStep temps 0 x hx

/-- The running minimum never exceeds its initial value. -/
lemma foldl_minStep_le (l : List ℤ) (a : ℤ) :
    l.foldl (fun m x => if x < m then x else m) a ≤ a := by
  induction l generalizing a with
  | nil => simp
  | cons t ts ih =>
      refine le_trans (ih (if t < a then t else a)) ?_
      split <;> omega

/-- The final running minimum is at most every element of the list. -/
lemma foldl_minStep_le_mem (l : List ℤ) (a x : ℤ) (hx : x ∈ l) :
    l.foldl (fun m x => if x < m then x else m) a ≤ x := by
  induction l generalizing a with
  | nil => cases hx
  | cons t ts ih =>
      rcases List.mem_cons.mp hx with h | h
      · subst h
        refine le_trans (foldl_minStep_le ts (if x < a then x else a)) ?_
        split <;> omega
      · exact ih _ h

/-- `GetMinTemperature` is at most every value in the map. -/
lemma GetMinTemperature_le (temps : List ℤ) (x : ℤ) (hx : x ∈ temps) :
    GetMinTemperature temps ≤ x := by
  match temps with
  | [] => cases hx
  | t :: ts => exact foldl_minStep_le_mem (t :: ts) t x hx

/-- A list whose elements are all at most `b` has sum at most `length * b`. -/
lemma sum_le_length_mul (l : List ℤ) (b : ℤ) (h : ∀ x ∈ l, x ≤ b) :
    l.sum ≤ (l.length : ℤ) * b := by
  induction l with
  | nil => simp
  | cons t ts ih =>
      have ht := h t (List.mem_cons_self t ts)
      have hts := ih fun x hx => h x (List.mem_cons_of_mem t hx)
      simp only [List.sum_cons, List.length_cons]
      push_cast
      linarith

/-- A list whose elements are all at least `a` has sum at least `length * a`. -/
lemma length_mul_le_sum (l : List ℤ) (a : ℤ) (h : ∀ x ∈ l, a ≤ x) :
    (l.length : ℤ) * a ≤ l.sum := by
  induction l with
  | nil => simp
  | cons t ts ih =>
      have ht := h t (List.mem_cons_self t ts)
      have hts := ih fun x hx => h x (List.mem_cons_of_mem t hx)
      simp only [List.sum_cons, List.length_cons]
      push_cast
      linarith

/-- C7: for every non-empty temperature map and every `n ≥ 1`, the warmest-n
average lies between `GetMinTemperature` and `GetMaxTemperature`; on the
empty map all three aggregates return zero. -/
theorem C7_min_avg_max :
    (∀ (temps : List ℤ) (n : ℤ), temps ≠ [] → 1 ≤ n →
      ∃ q : ℚ, GetAverageOfWarmest temps n = some q ∧
        (GetMinTemperature temps : ℚ) ≤ q ∧
        q ≤ (GetMaxTemperature temps : ℚ)) ∧
    (∀ n : ℤ, GetAverageOfWarmest [] n = some 0) ∧
    GetMaxTemperature [] = 0 ∧ GetMinTemperature [] = 0 := by
  refine ⟨?_, fun n => rfl, rfl, rfl⟩
  intro temps n hne hn
  have hlen : 1 ≤ (temps.length : ℤ) := by
    cases temps with
    | nil => exact absurd rfl hne
    | cons t ts => simp only [List.length_cons]; omega
  have htc1 : 1 ≤ warmestTakeCount temps n := by
    unfold warmestTakeCount; split <;> omega
  have htc_le : warmestTakeCount temps n ≤ (temps.length : ℤ) := by
    unfold warmestTakeCount; split <;> omega
  have htc0 : warmestTakeCount temps n ≠ 0 := by omega
  refine ⟨(warmestSum temps n : ℚ) / (warmestTakeCount temps n : ℚ), ?_, ?_, ?_⟩
  · unfold GetAverageOfWarmest
    rw [if_neg hne, if_neg htc0]
  all_goals {
    have hsubset : ∀ x ∈ (temps.insertionSort (fun a b => b ≤ a)).take
        (warmestTakeCount temps n).toNat, x ∈ temps := by
      intro x hx
      exact (List.mem_insertionSort _).mp (List.take_subset _ _ hx)
    have hlentake : (((temps.insertionSort (fun a b => b ≤ a)).take
        (warmestTakeCount temps n).toNat).length : ℤ) = warmestTakeCount temps n := by
      rw [List.length_take, List.length_insertionSort]
      have h1 : (warmestTakeCount temps n).toNat ≤ temps.length := by omega
      rw [min_eq_left h1]
      omega
    have htcQ : (0 : ℚ) < (warmestTakeCount temps n : ℚ) := by
      exact_mod_cast lt_of_lt_of_le one_pos htc1
    first
    | · rw [le_div_iff₀ htcQ]
        have hlow : (warmestTakeCount temps n) * GetMinTemperature temps ≤
            warmestSum temps n := by
          have := length_mul_le_sum ((temps.insertionSort (fun a b => b ≤ a)).take
            (warmestTakeCount temps n).toNat) (GetMinTemperature temps)
            (fun x hx => GetMinTemperature_le temps x (hsubset x hx))
          rw [hlentake] at this
          exact this
        calc (GetMinTemperature temps : ℚ) * (warmestTakeCount temps n : ℚ)
            = ((warmestTakeCount temps n * GetMinTemperature temps : ℤ) : ℚ) := by
              push_cast; ring
          _ ≤ (warmestSum temps n : ℚ) := by exact_mod_cast hlow
    | · rw [div_le_iff₀ htcQ]
        have hhigh : warmestSum temps n ≤
            (warmestTakeCount temps n) * GetMaxTemperature temps := by
          have := sum_le_length_mul ((temps.insertionSort (fun a b => b ≤ a)).take
            (warmestTakeCount temps n).toNat) (GetMaxTemperature temps)
            (fun x hx => le_GetMaxTemperature temps x (hsubset x hx))
          rw [hlentake] at this
          exact this
        calc (warmestSum temps n : ℚ)
            ≤ ((warmestTakeCount temps n * GetMaxTemperature temps : ℤ) : ℚ) := by
              exact_mod_cast hhigh
          _ = (GetMaxTemperature temps : ℚ) * (warmestTakeCount temps n : ℚ) := by
              push_cast; ring
  }

/-- Witness for C7 at a concrete map and `n`. -/
theorem C7_witness :
    ∃ q : ℚ, GetAverageOfWarmest [35, 42] 2 = some q ∧
      (GetMinTemperature [35, 42] : ℚ) ≤ q ∧
      q ≤ (GetMaxTemperature [35, 42] : ℚ) :=
  C7_min_avg_max.1 [35, 42] 2 (by simp) (by norm_num)

/-- C8 counterexample: on the non-empty map with one disk at 30 °C and
`n = 0`, the Go code computes `float64(0) / float64(0)`, which is NaN, not
0.0 (modelled by `none`). -/
theorem C8_counterexample :
    GetAverageOfWarmest [30] 0 = none ∧
    GetAverageOfWarmest [30] 0 ≠ some 0 := by
  constructor <;> simp [GetAverageOfWarmest, warmestTakeCount]

/-- C8 amended: for `n < 0` the loop body never runs and the float division
`0 / take` yields (negative) zero, so the result is 0.0; for `n = 0` on a
non-empty map the division is `0/0` and the result is NaN (`none`), not 0.0;
on the empty map the early return gives 0.0 for every `n`. -/
theorem C8_zero_or_nan :
    (∀ (temps : List ℤ) (n : ℤ), n < 0 →
      GetAverageOfWarmest temps n = some 0) ∧
    (∀ temps : List ℤ, temps ≠ [] → GetAverageOfWarmest temps 0 = none) ∧
    (∀ n : ℤ, GetAverageOfWarmest [] n = some 0) := by
  refine ⟨?_, ?_, fun n => rfl⟩
  · intro temps n hn
    unfold GetAverageOfWarmest
    by_cases hne : temps = []
    · rw [if_pos hne]
    · have hlen : 0 ≤ (temps.length : ℤ) := by positivity
      have htc : warmestTakeCount temps n = n := by
        unfold warmestTakeCount; split <;> omega
      have htc0 : warmestTakeCount temps n ≠ 0 := by omega
      rw [if_neg hne, if_neg htc0]
      have hsum : warmestSum temps n = 0 := by
        unfold warmestSum
        have : (warmestTakeCount temps n).toNat = 0 := by omega
        rw [this]
        simp
      rw [hsum]
      simp
  · intro temps hne
    unfold GetAverageOfWarmest
    have htc : warmestTakeCount temps 0 = 0 := by
      unfold warmestTakeCount
      have : 0 ≤ (temps.length : ℤ) := by positivity
      split <;> omega
    rw [if_neg hne, if_pos htc]

/-- Witness for C8's amended statement at a concrete map and negative `n`. -/
theorem C8_witness : GetAverageOfWarmest [30] (-1) = some 0 :=
  C8_zero_or_nan.1 [30] (-1) (by norm_num)

/-!
Configuration (config.go).  Go `float64` fields are `ℚ`, Go `int` fields are
`ℤ`, `time.Duration` is its underlying `int64` nanosecond count (`ℤ`).  YAML
decoding leaves absent fields at their Go zero values, so `LoadConfig` is
modelled from the decoded `Config` value onward (the file read and YAML
unmarshal are I/O).
-/

/-- Embedding of `ServerConfig` from config.go. -/
structure ServerConfig where
  MetricsPort : ℤ
  LogLevel : String
deriving DecidableEq

/-- Embedding of `TemperatureConfig` from config.go; `PollInterval` is a Go
`time.Duration` in nanoseconds. -/
structure TemperatureConfig where
  TargetHDD : ℚ
  MaxHDD : ℚ
  MaxCPU : ℚ
  PollInterval : ℤ
  WarmestDisks : ℤ
deriving DecidableEq

/-- Embedding of `FanConfig` from config.go. -/
structure FanConfig where
  MinDuty : ℤ
  MaxDuty : ℤ
  StartupDuty : ℤ
deriving DecidableEq

/-- Embedding of `PIDConfig` from config.go. -/
structure PIDConfig where
  Kp : ℚ
  Ki : ℚ
  Kd : ℚ
  IntegralMax : ℚ
deriving DecidableEq

/-- Embedding of `DiskConfig` from config.go. -/
structure DiskConfig where
  ExcludePatterns : List String
deriving DecidableEq

/-- Embedding of `Config` from config.go. -/
structure Config where
  Server : ServerConfig
  Temperature : TemperatureConfig
  Fans : FanConfig
  PID : PIDConfig
  Disks : DiskConfig
deriving DecidableEq

/-- The five default exclude patterns installed by `setDefaults`. -/
def defaultPatterns : List String := ["^loop", "^sr", "^zram", "^zd", "^dm-"]

/-- Embedding of `setDefaults` from config.go: each field whose current value
is the Go zero value (0, empty string, empty list) is replaced by its
default; `30 * time.Second` is 30000000000 ns. -/
def setDefaults (c : Config) : Config :=
  { Server :=
      { MetricsPort := if c.Server.MetricsPort = 0 then 9090
          else c.Server.MetricsPort,
        LogLevel := if c.Server.LogLevel = "" then "info"
          else c.Server.LogLevel },
    Temperature :=
      { TargetHDD := if c.Temperature.TargetHDD = 0 then 38
          else c.Temperature.TargetHDD,
        MaxHDD := if c.Temperature.MaxHDD = 0 then 40
          else c.Temperature.MaxHDD,
        MaxCPU := if c.Temperature.MaxCPU = 0 then 75
          else c.Temperature.MaxCPU,
        PollInterval := if c.Temperature.PollInterval = 0 then 30000000000
          else c.Temperature.PollInterval,
        WarmestDisks := if c.Temperature.WarmestDisks = 0 then 4
          else c.Temperature.WarmestDisks },
    Fans :=
      { MinDuty := if c.Fans.MinDuty = 0 then 30 else c.Fans.MinDuty,
        MaxDuty := if c.Fans.MaxDuty = 0 then 100 else c.Fans.MaxDuty,
        StartupDuty := if c.Fans.StartupDuty = 0 then 50
          else c.Fans.StartupDuty },
    PID :=
      { Kp := if c.PID.Kp = 0 then 5 else c.PID.Kp,
        Ki := if c.PID.Ki = 0 then 1/10 else c.PID.Ki,
        Kd := if c.PID.Kd = 0 then 20 else c.PID.Kd,
        IntegralMax := if c.PID.IntegralMax = 0 then 50
          else c.PID.IntegralMax },
    Disks :=
      { ExcludePatterns := if c.Disks.ExcludePatterns = [] then defaultPatterns
          else c.Disks.ExcludePatterns } }

/-- Embedding of `Config.Validate` from config.go as an acceptance predicate:
`true` iff the Go method returns nil.  Each conjunct is the negation of one
rejection condition, in source order; the error message strings themselves
are not modelled. -/
def Validate (c : Config) : Bool :=
  decide (c.Temperature.TargetHDD < c.Temperature.MaxHDD) &&
  decide (0 < c.Temperature.TargetHDD) &&
  decide (0 < c.Temperature.MaxHDD) &&
  decide (0 < c.Temperature.MaxCPU) &&
  decide (0 < c.Temperature.PollInterval) &&
  decide (0 < c.Temperature.WarmestDisks) &&
  decide (0 ≤ c.Fans.MinDuty) && decide (c.Fans.MinDuty ≤ 100) &&
  decide (0 ≤ c.Fans.MaxDuty) && decide (c.Fans.MaxDuty ≤ 100) &&
  decide (0 ≤ c.Fans.StartupDuty) && decide (c.Fans.StartupDuty ≤ 100) &&
  decide (c.Fans.MinDuty < c.Fans.MaxDuty) &&
  decide (0 ≤ c.PID.Kp) && decide (0 ≤ c.PID.Ki) && decide (0 ≤ c.PID.Kd) &&
  decide (0 < c.PID.IntegralMax) &&
  decide (0 < c.Server.MetricsPort) && decide (c.Server.MetricsPort ≤ 65535) &&
  (decide (c.Server.LogLevel = "debug") || decide (c.Server.LogLevel = "info") ||
   decide (c.Server.LogLevel = "warn") || decide (c.Server.LogLevel = "error"))

/-- Embedding of `LoadConfig` from config.go, from the decoded YAML value
onward: apply `setDefaults`, then `Validate`; a validation failure returns an
error (`none`). -/
def LoadConfig (parsed : Config) : Option Config :=
  let config := setDefaults parsed
  if Validate config then some config else none

/-- C10: `LoadConfig` runs `setDefaults` before `Validate` and returns the
defaulted configuration; `setDefaults` replaces exactly-zero fields with
their nonzero defaults (MinDuty 0 becomes 30, MaxHDD 0 becomes 40.0, Kp 0
becomes 5.0, an empty exclude list becomes the five default patterns); hence
a configuration returned by `LoadConfig` never has `MinDuty = 0` or
`Kp = 0`, even though `Validate` itself accepts such values. -/
theorem C10_defaults_before_validate :
    (∀ parsed c, LoadConfig parsed = some c →
      c = setDefaults parsed ∧ Validate c = true) ∧
    (∀ c : Config, c.Fans.MinDuty = 0 → (setDefaults c).Fans.MinDuty = 30) ∧
    (∀ c : Config, c.Temperature.MaxHDD = 0 →
      (setDefaults c).Temperature.MaxHDD = 40) ∧
    (∀ c : Config, c.PID.Kp = 0 → (setDefaults c).PID.Kp = 5) ∧
    (∀ c : Config, c.Disks.ExcludePatterns = [] →
      (setDefaults c).Disks.ExcludePatterns = defaultPatterns) ∧
    (∀ parsed c, LoadConfig parsed = some c →
      c.Fans.MinDuty ≠ 0 ∧ c.PID.Kp ≠ 0) ∧
    (∃ c : Config, c.Fans.MinDuty = 0 ∧ c.PID.Kp = 0 ∧ Validate c = true) := by
  have hload : ∀ parsed c, LoadConfig parsed = some c →
      c = setDefaults parsed ∧ Validate c = true := by
    intro parsed c h
    simp only [LoadConfig] at h
    split at h
    · cases h
      exact ⟨rfl, by assumption⟩
    · cases h
  refine ⟨hload, ?_, ?_, ?_, ?_, ?_, ?_⟩
  · intro c h; simp [setDefaults, h]
  · intro c h; simp [setDefaults, h]
  · intro c h; simp [setDefaults, h]
  · intro c h; simp [setDefaults, h]
  · intro parsed c h
    obtain ⟨rfl, -⟩ := hload parsed c h
    constructor
    · by_cases h0 : parsed.Fans.MinDuty = 0 <;> simp [setDefaults, h0]
    · by_cases h0 : parsed.PID.Kp = 0 <;> simp [setDefaults, h0]
  · refine ⟨⟨⟨9090, "info"⟩, ⟨38, 40, 75, 1, 4⟩, ⟨0, 100, 50⟩,
      ⟨0, 0, 0, 50⟩, ⟨defaultPatterns⟩⟩, rfl, rfl, ?_⟩
    simp only [Validate, Bool.and_eq_true, Bool.or_eq_true, decide_eq_true_eq]
    norm_num

/-- Witness for C10 at the all-zero decoded configuration. -/
theorem C10_witness :
    setDefaults ⟨⟨0, ""⟩, ⟨0, 0, 0, 0, 0⟩, ⟨0, 0, 0⟩, ⟨0, 0, 0, 0⟩, ⟨[]⟩⟩ =
      setDefaults ⟨⟨0, ""⟩, ⟨0, 0, 0, 0, 0⟩, ⟨0, 0, 0⟩, ⟨0, 0, 0, 0⟩, ⟨[]⟩⟩ ∧
    Validate (setDefaults ⟨⟨0, ""⟩, ⟨0, 0, 0, 0, 0⟩, ⟨0, 0, 0⟩,
      ⟨0, 0, 0, 0⟩, ⟨[]⟩⟩) = true := by
  have hv : Validate (setDefaults ⟨⟨0, ""⟩, ⟨0, 0, 0, 0, 0⟩, ⟨0, 0, 0⟩,
      ⟨0, 0, 0, 0⟩, ⟨[]⟩⟩) = true := by
    simp only [setDefaults, Validate, Bool.and_eq_true, Bool.or_eq_true,
      decide_eq_true_eq]
    norm_num
  have h : LoadConfig ⟨⟨0, ""⟩, ⟨0, 0, 0, 0, 0⟩, ⟨0, 0, 0⟩, ⟨0, 0, 0, 0⟩,
      ⟨[]⟩⟩ = some (setDefaults ⟨⟨0, ""⟩, ⟨0, 0, 0, 0, 0⟩, ⟨0, 0, 0⟩,
      ⟨0, 0, 0, 0⟩, ⟨[]⟩⟩) := by
    simp only [LoadConfig]
    rw [if_pos hv]
  exact C10_defaults_before_validate.1 _ _ h

/-- Embedding of `checkEmergencyConditions` from main.go: CPU over-temp is
checked first and returns "cpu_temp"; otherwise a disk over-temp returns
"hdd_temp"; otherwise no emergency ("").  The Go source compares the `int`
disk maximum against the `float64` `MaxHDD` threshold, modelled as the cast
comparison. -/
def checkEmergencyConditions (cpuTemp : ℚ) (maxDiskTemp : ℤ)
    (config : Config) : String :=
  if cpuTemp > config.Temperature.MaxCPU then "cpu_temp"
  else if (maxDiskTemp : ℚ) > config.Temperature.MaxHDD then "hdd_temp"
  else ""

/-- Configuration used by the emergency-predicate test cases: `MaxCPU = 75`
and `MaxHDD = 45`, other fields at their defaults. -/
def testConfig : Config :=
  ⟨⟨9090, "info"⟩, ⟨38, 45, 75, 30000000000, 4⟩, ⟨30, 100, 50⟩,
   ⟨5, 1/10, 20, 50⟩, ⟨defaultPatterns⟩⟩

/-- C3: the emergency predicate returns "cpu_temp" exactly when
`cpu > MaxCPU` (checked first, so it wins when both conditions hold),
otherwise "hdd_temp" when `maxDisk > MaxHDD`, otherwise ""; with
`MaxCPU = 75` and `MaxHDD = 45` the four specified samples evaluate as
required. -/
theorem C3_emergency_predicate :
    (∀ (cpuTemp : ℚ) (maxDiskTemp : ℤ) (config : Config),
      checkEmergencyConditions cpuTemp maxDiskTemp config =
        if cpuTemp > config.Temperature.MaxCPU then "cpu_temp"
        else if (maxDiskTemp : ℚ) > config.Temperature.MaxHDD then "hdd_temp"
        else "") ∧
    checkEmergencyConditions 80 40 testConfig = "cpu_temp" ∧
    checkEmergencyConditions 60 50 testConfig = "hdd_temp" ∧
    checkEmergencyConditions 60 40 testConfig = "" ∧
    checkEmergencyConditions 80 50 testConfig = "cpu_temp" := by
  refine ⟨fun _ _ _ => rfl, ?_, ?_, ?_, ?_⟩ <;>
    norm_num [checkEmergencyConditions, testConfig]

/-!
Fan actuation (ipmi.go).  `SetAllFans` is modelled up to the argv it hands to
the `ipmitool` subprocess: the range check happens before any subprocess
invocation, so an out-of-range duty yields the error and no argv; an in-range
duty yields `ok argv`.  The retry loop and process execution are I/O and not
modelled.
-/

/-- Lowercase hexadecimal digit for a value in `[0, 15]`. -/
def hexDigit (n : ℕ) : Char :=
  if n < 10 then Char.ofNat (48 + n) else Char.ofNat (97 + (n - 10))

/-- Go's `fmt.Sprintf("0x%02x", d)` for `0 ≤ d ≤ 255`: the prefix `0x`
followed by the two-digit lowercase hexadecimal form of `d`. -/
def dutyHex (d : ℤ) : String :=
  String.mk ['0', 'x', hexDigit (d.toNat / 16), hexDigit (d.toNat % 16)]

/-- Embedding of `SetAllFans` from ipmi.go: rejects a duty outside
`[0, 100]` with the invalid-duty error before touching the subprocess;
otherwise produces the `ipmitool` argv `raw 0x3a 0xd6`, six copies of the
duty byte, and ten `0x64` padding bytes. -/
def SetAllFans (dutyPercent : ℤ) : Except String (List String) :=
  if dutyPercent < 0 ∨ dutyPercent > 100 then
    Except.error "duty cycle must be between 0-100"
  else
    Except.ok (["raw", "0x3a", "0xd6"] ++
      List.replicate 6 (dutyHex dutyPercent) ++
      List.replicate 10 "0x64")

/-- C6: for every duty in `[0, 100]`, `SetAllFans` encodes the fixed header,
six copies of the two-digit lowercase hex duty byte, and exactly ten `0x64`
padding bytes; `encode(50)` is the exact 19-element argv from the spec; any
duty outside `[0, 100]` fails with the invalid-duty error (no argv is ever
produced for it). -/
theorem C6_raw_command_encoding :
    (∀ d : ℤ, 0 ≤ d → d ≤ 100 →
      SetAllFans d = Except.ok (["raw", "0x3a", "0xd6"] ++
        List.replicate 6 (dutyHex d) ++ List.replicate 10 "0x64")) ∧
    SetAllFans 50 = Except.ok ["raw", "0x3a", "0xd6",
      "0x32", "0x32", "0x32", "0x32", "0x32", "0x32",
      "0x64", "0x64", "0x64", "0x64", "0x64", "0x64", "0x64", "0x64",
      "0x64", "0x64"] ∧
    SetAllFans 100 = Except.ok (["raw", "0x3a", "0xd6"] ++
      List.replicate 6 "0x64" ++ List.replicate 10 "0x64") ∧
    (∀ d : ℤ, d < 0 ∨ 100 < d →
      SetAllFans d = Except.error "duty cycle must be between 0-100") := by
  refine ⟨?_, by rfl, by rfl, ?_⟩
  · intro d h0 h100
    unfold SetAllFans
    rw [if_neg (by omega)]
  · intro d h
    unfold SetAllFans
    rw [if_pos (by omega)]

/-- Witness for C6 at duty 50 and duty 101. -/
theorem C6_witness :
    SetAllFans 50 = Except.ok (["raw", "0x3a", "0xd6"] ++
      List.replicate 6 (dutyHex 50) ++ List.replicate 10 "0x64") ∧
    SetAllFans 101 = Except.error "duty cycle must be between 0-100" :=
  ⟨C6_raw_command_encoding.1 50 (by norm_num) (by norm_num),
   C6_raw_command_encoding.2.2.2 101 (Or.inr (by norm_num))⟩

/-!
Disk discovery (sensors.go).  `matchesExcludePattern` calls Go's
`regexp.MatchString(pattern, name)`, which reports whether the string
CONTAINS any match of the pattern (an unanchored search) and returns an
error for a pattern that fails to compile.  The regexp engine is modelled on
the pattern subset this code relies on: an optional leading `^` anchor
followed by literal characters.  A pattern containing any other regexp
metacharacter is treated as failing to compile (a conservative model of the
compile-error case; all five default patterns are in the literal subset).
-/

/-- Regexp metacharacters that take the pattern outside the modelled
literal subset. -/
def regexMeta : List Char := ['.', '+', '*', '?', '(', ')', '|', '[', ']', '$', '\\']

/-- Compiled form of a modelled pattern: an optional `^` anchor and the
literal character sequence to find. -/
structure GoRegex where
  anchored : Bool
  lit : List Char
deriving DecidableEq

/-- Model of Go `regexp.Compile` on the modelled subset: strip an optional
leading `^`; fail (`none`) if any metacharacter remains. -/
def regexpCompile (p : String) : Option GoRegex :=
  match p.data with
  | '^' :: rest =>
      if rest.any (fun c => regexMeta.contains c) then none
      else some ⟨true, rest⟩
  | cs =>
      if cs.any (fun c => regexMeta.contains c) then none
      else some ⟨false, cs⟩

/-- Model of a compiled pattern matching a subject string: an anchored
pattern must match at the start of the subject; an unanchored pattern
matches if its literal occurs anywhere in the subject (Go's `MatchString`
unanchored-search semantics). -/
def regexMatches (r : GoRegex) (s : String) : Bool :=
  if r.anchored then r.lit.isPrefixOf s.data
  else s.data.tails.any (fun t => r.lit.isPrefixOf t)

/-- Model of Go `regexp.MatchString(pattern, s)`: `none` when the pattern
fails to compile (Go returns `(false, err)`), otherwise whether the subject
contains a match. -/
def MatchString (pattern s : String) : Option Bool :=
  (regexpCompile pattern).map (fun r => regexMatches r s)

/-- Embedding of `matchesExcludePattern` from sensors.go: for each pattern,
a compile error is logged and skipped (`continue`); a successful match
returns true; exhausting the list returns false. -/
def matchesExcludePattern (device : String) (patterns : List String) : Bool :=
  patterns.any fun p =>
    match MatchString p device with
    | none => false
    | some matched => matched

/-- The exclusion predicate stated the way the claim reads it: a pattern
must match the device name from its start (anchored semantics) regardless of
whether the pattern itself carries a `^`. -/
def matchesExcludePatternAnchored (device : String)
    (patterns : List String) : Bool :=
  patterns.any fun p =>
    match regexpCompile p with
    | none => false
    | some r => r.lit.isPrefixOf device.data

/-- Embedding of `discoverSpinningDisks` from sensors.go, with the sysfs
reads abstracted: `entries` is the `/sys/block` listing and `isSpin d` is
the outcome of `isSpinningDisk d` (`none` for an error, which is logged and
skipped).  A device survives iff it matches no exclude pattern and is a
non-removable rotational disk; pattern compile errors never abort
discovery. -/
def discoverSpinningDisks (entries : List String)
    (excludePatterns : List String) (isSpin : String → Option Bool) :
    List String :=
  entries.filter fun device =>
    !(matchesExcludePattern device excludePatterns) &&
    ((isSpin device).getD false)

/-- C9 counterexample: with the exclude pattern "sr", the device name "usr"
is excluded by the code (the unanchored search finds "sr" at offset 1),
although "sr" does not match "usr" from the start — anchored semantics would
keep the device. -/
theorem C9_counterexample :
    matchesExcludePattern "usr" ["sr"] = true ∧
    matchesExcludePatternAnchored "usr" ["sr"] = false := by
  constructor <;> rfl

/-- C9 amended: a device name is excluded iff some pattern in the list
compiles and finds a match ANYWHERE in the name (Go's unanchored search; a
pattern anchors itself only by carrying a leading `^`, as all five defaults
do); a pattern that fails to compile is skipped and can neither exclude a
device nor fail discovery, and discovery keeps exactly the non-excluded
devices whose rotational/removable probe returns true. -/
theorem C9_exclusion_semantics :
    (∀ (device : String) (patterns : List String),
      matchesExcludePattern device patterns = true ↔
        ∃ p ∈ patterns, ∃ r, regexpCompile p = some r ∧
          regexMatches r device = true) ∧
    (∀ (device : String) (p : String), regexpCompile p = none →
      matchesExcludePattern device [p] = false) ∧
    (∀ (entries patterns : List String) (isSpin : String → Option Bool)
        (d : String),
      d ∈ discoverSpinningDisks entries patterns isSpin ↔
        d ∈ entries ∧ matchesExcludePattern d patterns = false ∧
          isSpin d = some true) := by
  refine ⟨?_, ?_, ?_⟩
  · intro device patterns
    unfold matchesExcludePattern
    rw [List.any_eq_true]
    constructor
    · rintro ⟨p, hp, hmatch⟩
      refine ⟨p, hp, ?_⟩
      unfold MatchString at hmatch
      cases hc : regexpCompile p with
      | none => rw [hc] at hmatch; simp [Option.map] at hmatch
      | some r =>
          rw [hc] at hmatch
          simp only [Option.map] at hmatch
          exact ⟨r, rfl, hmatch⟩
    · rintro ⟨p, hp, r, hc, hm⟩
      refine ⟨p, hp, ?_⟩
      unfold MatchString
      rw [hc]
      simpa using hm
  · intro device p hc
    unfold matchesExcludePattern MatchString
    simp [hc]
  · intro entries patterns isSpin d
    unfold discoverSpinningDisks
    rw [List.mem_filter]
    constructor
    · rintro ⟨hd, hb⟩
      rw [Bool.and_eq_true, Bool.not_eq_true'] at hb
      refine ⟨hd, hb.1, ?_⟩
      cases hs : isSpin d with
      | none => rw [hs] at hb; simp [Option.getD] at hb
      | some b =>
          rw [hs] at hb
          simp only [Option.getD] at hb
          rw [hb.2]
    · rintro ⟨hd, hm, hs⟩
      refine ⟨hd, ?_⟩
      rw [Bool.and_eq_true, Bool.not_eq_true']
      exact ⟨hm, by rw [hs]; rfl⟩

/-- Witness for C9's amended statement: the non-compiling pattern `[` is
skipped and excludes nothing. -/
theorem C9_witness : matchesExcludePattern "sda" ["["] = false :=
  C9_exclusion_semantics.2.1 "sda" "[" rfl

/-!
Control loop (main.go, `runControlLoop`).  One loop iteration (tick) is
modelled from the point where both temperature reads have succeeded: the
inputs are the disk-temperature values, the CPU temperature, the wall clock,
and an oracle giving the outcome of the two possible `SetAllFans`
invocations.  Metrics publication, logging, fan-RPM readback and sleeping
are I/O with no influence on the loop state and are not modelled.  The
`int(output)` conversion truncates toward zero.
-/

/-- Go's `int(x)` conversion for a float: truncation toward zero. -/
def goTrunc (q : ℚ) : ℤ :=
  if 0 ≤ q then ⌊q⌋ else -⌊-q⌋

/-- Outcomes of the external `ipmitool` calls a tick can make:
`setFansOk` is the success of `SetAllFans(fanDuty)` and `emergencySetOk`
the success of the final `SetAllFans(100)` whose result the code ignores. -/
structure TickOracle where
  setFansOk : Bool
  emergencySetOk : Bool
deriving DecidableEq

/-- Observable state of one tick: the commanded duty, the published PID
terms, the emergency reason, the PID controller state after the tick, the
consecutive-IPMI-failure counter after the tick, and the duties of the
actuation attempts made (in order). -/
structure TickResult where
  fanDuty : ℤ
  pidTerms : PIDTerms
  emergencyReason : String
  pid : PIDController
  consecutiveFailures : ℤ
  actuations : List ℤ
deriving DecidableEq

/-- The fixed escalation threshold `maxIPMIFailures` from `runControlLoop`. -/
def maxIPMIFailures : ℤ := 5

/-- Actuation part of a tick (main.go lines 156-176): skipped entirely in
dry-run mode; on success the failure counter resets to 0; on failure it is
incremented, and when it reaches `maxIPMIFailures` the reason is forced to
"ipmi_failure", the duty to 100, and one more `SetAllFans(100)` is attempted
whose result (`o.emergencySetOk`) is never read. -/
def applyActuation (r0 : TickResult) (dryRun : Bool) (o : TickOracle) :
    TickResult :=
  if dryRun then r0
  else if o.setFansOk then
    { r0 with consecutiveFailures := 0, actuations := [r0.fanDuty] }
  else if maxIPMIFailures ≤ r0.consecutiveFailures + 1 then
    { r0 with consecutiveFailures := r0.consecutiveFailures + 1,
              emergencyReason := "ipmi_failure", fanDuty := 100,
              actuations := [r0.fanDuty, 100] }
  else
    { r0 with consecutiveFailures := r0.consecutiveFailures + 1,
              actuations := [r0.fanDuty] }

/-- Embedding of one tick of `runControlLoop` (after successful temperature
reads): aggregate, evaluate the emergency predicate, pick the duty
(emergency forces 100 with zero `PIDTerms` and an untouched PID; otherwise
the PID runs and its truncated output is clamped to `[MinDuty, MaxDuty]`),
then actuate.  `none` models the normal-regime tick whose warmest-n average
is NaN (see `GetAverageOfWarmest`), which cannot arise under a validated
configuration. -/
def tick (config : Config) (dryRun : Bool) (pid : PIDController)
    (failures : ℤ) (diskTemps : List ℤ) (cpuTemp now : ℚ) (o : TickOracle) :
    Option TickResult :=
  let maxTemp := GetMaxTemperature diskTemps
  let reason0 := checkEmergencyConditions cpuTemp maxTemp config
  if reason0 = "" then
    match GetAverageOfWarmest diskTemps config.Temperature.WarmestDisks with
    | none => none
    | some avgTemp =>
      let c := Calculate pid avgTemp now
      let d0 := goTrunc c.1
      let d1 := if d0 < config.Fans.MinDuty then config.Fans.MinDuty else d0
      let d2 := if d1 > config.Fans.MaxDuty then config.Fans.MaxDuty else d1
      some (applyActuation ⟨d2, c.2.1, reason0, c.2.2, failures, []⟩ dryRun o)
  else
    some (applyActuation ⟨100, ⟨0, 0, 0, 0⟩, reason0, pid, failures, []⟩
      dryRun o)

/-- Any tick that produces a result does so by actuating a pre-actuation
state whose failure counter is the incoming one. -/
lemma tick_shape (config : Config) (dryRun : Bool) (pid : PIDController)
    (failures : ℤ) (diskTemps : List ℤ) (cpuTemp now : ℚ) (o : TickOracle)
    (r : TickResult)
    (h : tick config dryRun pid failures diskTemps cpuTemp now o = some r) :
    ∃ r0 : TickResult, r = applyActuation r0 dryRun o ∧
      r0.consecutiveFailures = failures := by
  simp only [tick] at h
  split at h
  · cases hav : GetAverageOfWarmest diskTemps config.Temperature.WarmestDisks with
    | none => rw [hav] at h; cases h
    | some avgTemp =>
        rw [hav] at h
        cases h
        exact ⟨_, rfl, rfl⟩
  · cases h
    exact ⟨_, rfl, rfl⟩

/-- Behaviour of the actuation step outside dry-run mode. -/
lemma applyActuation_spec (r0 : TickResult) (o : TickOracle) :
    (o.setFansOk = true →
      (applyActuation r0 false o).consecutiveFailures = 0) ∧
    (o.setFansOk = false →
      (applyActuation r0 false o).consecutiveFailures =
        r0.consecutiveFailures + 1) ∧
    (o.setFansOk = false → 5 ≤ r0.consecutiveFailures + 1 →
      (applyActuation r0 false o).emergencyReason = "ipmi_failure" ∧
      (applyActuation r0 false o).fanDuty = 100 ∧
      (applyActuation r0 false o).actuations = [r0.fanDuty, 100]) := by
  unfold applyActuation maxIPMIFailures
  refine ⟨?_, ?_, ?_⟩
  · intro hok; simp [hok]
  · intro hok
    simp only [hok, Bool.false_eq_true, if_false, if_neg (by simp : ¬False)]
    split <;> rfl
  · intro hok hth
    simp only [hok, Bool.false_eq_true, if_false, if_neg (by simp : ¬False)]
    rw [if_pos hth]
    exact ⟨rfl, rfl, rfl⟩

/-- C4: outside dry-run mode, the consecutive-IPMI-failure counter is
incremented by exactly one on a tick whose `SetAllFans` call fails and reset
to zero on a tick whose call succeeds; when the counter reaches the fixed
threshold 5, the tick's reason is forced to "ipmi_failure", its duty to 100,
and a second actuation of 100 is attempted; the result of that extra
actuation (`emergencySetOk`) never influences the tick. -/
theorem C4_failure_escalation (config : Config) (pid : PIDController)
    (failures : ℤ) (diskTemps : List ℤ) (cpuTemp now : ℚ) (ok e1 e2 : Bool)
    (r : TickResult)
    (h : tick config false pid failures diskTemps cpuTemp now ⟨ok, e1⟩ =
      some r) :
    (ok = true → r.consecutiveFailures = 0) ∧
    (ok = false → r.consecutiveFailures = failures + 1) ∧
    (ok = false → 5 ≤ failures + 1 →
      r.emergencyReason = "ipmi_failure" ∧ r.fanDuty = 100 ∧
      ∃ d, r.actuations = [d, 100]) ∧
    tick config false pid failures diskTemps cpuTemp now ⟨ok, e1⟩ =
      tick config false pid failures diskTemps cpuTemp now ⟨ok, e2⟩ := by
  obtain ⟨r0, rfl, hf⟩ :=
    tick_shape config false pid failures diskTemps cpuTemp now ⟨ok, e1⟩ r h
  have hs := applyActuation_spec r0 ⟨ok, e1⟩
  refine ⟨?_, ?_, ?_, rfl⟩
  · intro hok; exact hs.1 hok
  · intro hok; rw [hs.2.1 hok, hf]
  · intro hok hth
    have := hs.2.2 hok (by rw [hf]; exact hth)
    exact ⟨this.1, this.2.1, r0.fanDuty, this.2.2⟩

/-- Witness for C4: a concrete failing tick at counter 4 escalates. -/
theorem C4_witness :
    ∃ r : TickResult,
      tick testConfig false (NewPIDController 5 0 20 38 30 100 50) 4 [40] 80 0
        ⟨false, true⟩ = some r ∧
      (false = false → 5 ≤ (4 : ℤ) + 1 →
        r.emergencyReason = "ipmi_failure" ∧ r.fanDuty = 100 ∧
        ∃ d, r.actuations = [d, 100]) := by
  have h : tick testConfig false (NewPIDController 5 0 20 38 30 100 50) 4
      [40] 80 0 ⟨false, true⟩ =
      some (applyActuation ⟨100, ⟨0, 0, 0, 0⟩,
        checkEmergencyConditions 80 (GetMaxTemperature [40]) testConfig,
        NewPIDController 5 0 20 38 30 100 50, 4, []⟩ false ⟨false, true⟩) := by
    simp only [tick]
    rw [if_neg (by decide)]
  exact ⟨_, h,
    (C4_failure_escalation testConfig (NewPIDController 5 0 20 38 30 100 50)
      4 [40] 80 0 false true true _ h).2.2.1⟩

/-- The actuation step never changes the published PID terms or the PID
state, and preserves a commanded duty of 100. -/
lemma applyActuation_frame (r0 : TickResult) (dryRun : Bool)
    (o : TickOracle) :
    (applyActuation r0 dryRun o).pidTerms = r0.pidTerms ∧
    (applyActuation r0 dryRun o).pid = r0.pid ∧
    (r0.fanDuty = 100 → (applyActuation r0 dryRun o).fanDuty = 100) := by
  unfold applyActuation
  split_ifs <;> exact ⟨rfl, rfl, fun h => by first | rfl | exact h⟩

/-- C5: on any tick where the emergency predicate returns a non-empty
reason, the commanded duty is 100, the published `PIDTerms` are all zero,
and the PID controller state is bit-for-bit unchanged (the PID is neither
invoked nor reset). -/
theorem C5_emergency_frame (config : Config) (dryRun : Bool)
    (pid : PIDController) (failures : ℤ) (diskTemps : List ℤ)
    (cpuTemp now : ℚ) (o : TickOracle)
    (h : checkEmergencyConditions cpuTemp (GetMaxTemperature diskTemps)
      config ≠ "") :
    ∃ r : TickResult,
      tick config dryRun pid failures diskTemps cpuTemp now o = some r ∧
      r.fanDuty = 100 ∧ r.pidTerms = ⟨0, 0, 0, 0⟩ ∧ r.pid = pid := by
  refine ⟨applyActuation ⟨100, ⟨0, 0, 0, 0⟩,
    checkEmergencyConditions cpuTemp (GetMaxTemperature diskTemps) config,
    pid, failures, []⟩ dryRun o, ?_, ?_⟩
  · simp only [tick]
    rw [if_neg h]
  · have hfr := applyActuation_frame ⟨100, ⟨0, 0, 0, 0⟩,
      checkEmergencyConditions cpuTemp (GetMaxTemperature diskTemps) config,
      pid, failures, []⟩ dryRun o
    exact ⟨hfr.2.2 rfl, hfr.1, hfr.2.1⟩

/-- Witness for C5 at a concrete CPU-emergency tick. -/
theorem C5_witness :
    ∃ r : TickResult,
      tick testConfig false (NewPIDController 5 0 20 38 30 100 50) 0 [40]
        80 0 ⟨true, true⟩ = some r ∧
      r.fanDuty = 100 ∧ r.pidTerms = ⟨0, 0, 0, 0⟩ ∧
      r.pid = NewPIDController 5 0 20 38 30 100 50 :=
  C5_emergency_frame testConfig false (NewPIDController 5 0 20 38 30 100 50)
    0 [40] 80 0 ⟨true, true⟩ (by decide)
